import Mathlib

/-!
Verification of the transmit orchestrator (src/src/transmit.ts) from the
boringnode transmit server-sent-event library.

The orchestrator is embedded shallowly: every public operation is a pure
function from an orchestrator state to a (possibly updated) state together
with a trace of observable effects, where an effect is a publish on the
distributed bus, a write to one stream sink, or a lifecycle event emitted
through the emitter. The stream manager and the stream write sink live in
files of the repository that are not part of the sources here (only
transmit.ts and transport_message_type.ts are); those two collaborators are
modelled from the specification and marked as such in their doc comments.
-/

namespace Transmit

/-- Payload values carried by broadcasts (the Broadcastable type of the
source): an arbitrary JSON-like serializable value, never raw binary.
Numbers are modelled as integers. -/
inductive Broadcastable where
  | null : Broadcastable
  | bool (b : Bool) : Broadcastable
  | num (n : Int) : Broadcastable
  | str (s : String) : Broadcastable
  | arr (items : List Broadcastable) : Broadcastable
  | obj (fields : List (String × Broadcastable)) : Broadcastable

/-- JavaScript falsiness of a Broadcastable value, as tested by the
`if (!payload)` guard in Transmit.broadcast: null, false, 0 and the empty
string are falsy; every object and array is truthy. -/
def Broadcastable.isFalsy : Broadcastable → Bool
  | .null => true
  | .bool b => !b
  | .num n => n == 0
  | .str s => s == ""
  | .arr _ => false
  | .obj _ => false

/-- The three wire message shapes of the sync protocol (the TransmitMessage
union of transmit.ts): Broadcast carries a channel and payload, Subscribe
and Unsubscribe carry a channel and the subscribing uid. -/
inductive TransmitMessage where
  | broadcastMsg (channel : String) (payload : Broadcastable) : TransmitMessage
  | subscribeMsg (channel : String) (uid : String) : TransmitMessage
  | unsubscribeMsg (channel : String) (uid : String) : TransmitMessage

/-- Numeric tag of a wire message, from transport_message_type.ts
(Broadcast = 1, Subscribe = 2, Unsubscribe = 3). -/
def TransmitMessage.msgType : TransmitMessage → Nat
  | .broadcastMsg .. => 1
  | .subscribeMsg .. => 2
  | .unsubscribeMsg .. => 3

/-- Lifecycle events of the TransmitLifecycleHooks interface, carrying the
opaque application context of type C where the source does. -/
inductive LifeEvent (C : Type) where
  | connectEv (uid : String) (ctx : C) : LifeEvent C
  | disconnectEv (uid : String) (ctx : C) : LifeEvent C
  | broadcastEv (channel : String) (payload : Broadcastable) : LifeEvent C
  | subscribeEv (uid : String) (channel : String) (ctx : C) : LifeEvent C
  | unsubscribeEv (uid : String) (channel : String) (ctx : C) : LifeEvent C

/-- Observable effects of one orchestrator operation, in program order:
a publish of a wire message on a bus topic, a write of a data frame
(channel plus payload) to the sink of the stream identified by uid
(ok records whether the sink write succeeded), or a lifecycle event
emitted to observers. -/
inductive Effect (C : Type) where
  | busPublish (topic : String) (msg : TransmitMessage) : Effect C
  | streamWrite (uid : String) (channel : String) (payload : Broadcastable) (ok : Bool) : Effect C
  | emitEvent (ev : LifeEvent C) : Effect C

/-- True exactly on lifecycle-event effects. -/
def Effect.isEmit {C : Type} : Effect C → Bool
  | .emitEvent _ => true
  | _ => false

/-- True exactly on bus-publish effects. -/
def Effect.isBusPublish {C : Type} : Effect C → Bool
  | .busPublish .. => true
  | _ => false

/-- Normalizes the success flag of stream writes, so that two traces agree
under this map exactly when the same writes were attempted with the same
frames, independently of which sinks failed. -/
def Effect.forgetOk {C : Type} : Effect C → Effect C
  | .streamWrite u ch p _ => .streamWrite u ch p true
  | e => e

/-- One live stream as the manager tracks it: the caller-supplied uid and
the mutable set of subscribed channel names. -/
structure StreamRec where
  uid : String
  channels : List String
deriving DecidableEq

/-- Modelled from the spec: the StreamManager registry state, missing from
the sources here (stream_manager.ts). It owns the set of live streams and
the channel index; the index is represented through the subscription set of
each stream (a uid is indexed for channel C iff that stream's set contains
C, the invariant of section 3 of the spec). -/
structure ManagerState where
  streams : List StreamRec
deriving DecidableEq

/-- Modelled from the spec: StreamManager.findByChannel returns the live
streams currently indexed for that exact channel name. -/
def ManagerState.findByChannel (st : ManagerState) (channel : String) : List StreamRec :=
  st.streams.filter fun s => s.channels.contains channel

/-- Modelled from the spec: StreamManager.getAllSubscribers iterates every
live connection together with its subscription set (used by keepalive). -/
def ManagerState.getAllSubscribers (st : ManagerState) : List StreamRec :=
  st.streams

/-- Modelled from the spec: StreamManager.subscribe. Fails (returns false)
when the uid has no live stream; otherwise the subscription is granted when
skipAuthorization is set (the predicate is bypassed entirely) or when the
authorization verdict authOk allows it (authOk stands for the outcome of
the registered predicate, allow-by-default included). On success the
channel is added to the stream's subscription set, idempotently. -/
def ManagerState.subscribe (st : ManagerState) (uid channel : String)
    (skipAuthorization authOk : Bool) : ManagerState × Bool :=
  if st.streams.any (fun s => s.uid == uid) then
    if skipAuthorization || authOk then
      (⟨st.streams.map fun s =>
          if s.uid == uid then
            { s with channels := if s.channels.contains channel then s.channels
                                 else s.channels ++ [channel] }
          else s⟩, true)
    else (st, false)
  else (st, false)

/-- Modelled from the spec: StreamManager.unsubscribe removes the channel
from the stream's set and the index when present, and reports whether a
removal actually occurred; a missing stream or a missing subscription is
not an error and signals false. -/
def ManagerState.unsubscribe (st : ManagerState) (uid channel : String) :
    ManagerState × Bool :=
  if st.streams.any (fun s => s.uid == uid && s.channels.contains channel) then
    (⟨st.streams.map fun s =>
        if s.uid == uid then { s with channels := s.channels.filter (fun c => c != channel) }
        else s⟩, true)
  else (st, false)

/-- The senderUid argument of the local fan-out: absent, one uid, or a list
of uids (string or string array in the source). -/
inductive SenderUid where
  | undef : SenderUid
  | one (uid : String) : SenderUid
  | many (uids : List String) : SenderUid

/-- The exclusion test of the fan-out loop, exactly as written in the
source: an array is tested with includes, a single string with strict
equality, and the absent value compares unequal to every uid. -/
def SenderUid.excludes : SenderUid → String → Bool
  | .undef, _ => false
  | .one u, v => u == v
  | .many us, v => us.contains v

/-- Embeds Transmit.#broadcastLocally: iterate the streams indexed for the
channel, skip those matched by senderUid, and write the data frame to each
remaining sink. Stream.writeMessage is modelled from the spec (the Stream
class is not among the sources here): a failing sink write — failing lists
the uids whose sink fails — is caught inside the stream and recorded as
ok := false, never raised to the fan-out loop. -/
def broadcastLocally {C : Type} (mgr : ManagerState) (channel : String)
    (payload : Broadcastable) (senderUid : SenderUid) (failing : List String) :
    List (Effect C) :=
  (mgr.findByChannel channel).filterMap fun s =>
    if senderUid.excludes s.uid then none
    else some (.streamWrite s.uid channel payload (!(failing.contains s.uid)))

/-- Configuration surface of the orchestrator that the claims touch: the
optional bus topic name (transport.channel) and the optional ping interval,
already normalized to milliseconds (the source accepts a number or a
duration string and parses the latter). -/
structure TransmitConfig where
  transportChannelCfg : Option String
  pingInterval : Option Nat
deriving DecidableEq

/-- The orchestrator state: the stream manager it owns, whether a bus
transport was configured (the bus field is null exactly when the
constructor received no transport), whether the bus connection is up, the
bus topic, and whether the keepalive interval timer was installed. -/
structure TState where
  manager : ManagerState
  hasBus : Bool
  busConnected : Bool
  transportChannel : String
  intervalSet : Bool
deriving DecidableEq

/-- Embeds the Transmit constructor for the parts the claims depend on:
the bus exists iff a transport was passed, the bus topic defaults to
transmit::broadcast, and the interval timer is installed iff a ping
interval is configured. -/
def mkTransmit (config : TransmitConfig) (hasTransport : Bool) : TState :=
  { manager := ⟨[]⟩
    hasBus := hasTransport
    busConnected := hasTransport
    transportChannel := config.transportChannelCfg.getD "transmit::broadcast"
    intervalSet := config.pingInterval.isSome }

/-- Embeds Transmit.#subscribeLocally: delegate to the stream manager with
skipAuthorization set to true and no onSubscribe callback. The authOk
argument stands for what the authorization predicate would have answered;
it is passed only to witness that the bypass ignores it. -/
def TState.subscribeLocally (t : TState) (uid channel : String) (authOk : Bool) :
    ManagerState × Bool :=
  t.manager.subscribe uid channel true authOk

/-- Embeds Transmit.#unsubscribeLocally: delegate to the stream manager
with no onUnsubscribe callback. -/
def TState.unsubscribeLocally (t : TState) (uid channel : String) :
    ManagerState × Bool :=
  t.manager.unsubscribe uid channel

/-- Embeds Transmit.subscribe: delegate to the stream manager with an
onSubscribe callback that emits the subscribe lifecycle event and, when a
bus is configured, publishes a Subscribe wire message tagged with the uid
on the transport channel. The manager invokes the callback exactly once,
on success. -/
def TState.subscribe {C : Type} (t : TState) (uid channel : String) (ctx : C)
    (authOk : Bool) : TState × Bool × List (Effect C) :=
  let r := t.manager.subscribe uid channel false authOk
  ({ t with manager := r.1 }, r.2,
    if r.2 then
      Effect.emitEvent (.subscribeEv uid channel ctx) ::
        (if t.hasBus then
          [Effect.busPublish t.transportChannel (.subscribeMsg channel uid)]
        else [])
    else [])

/-- Embeds Transmit.unsubscribe: delegate to the stream manager with an
onUnsubscribe callback that emits the unsubscribe lifecycle event and,
when a bus is configured, publishes an Unsubscribe wire message. The
manager invokes the callback only when a removal actually occurred. -/
def TState.unsubscribe {C : Type} (t : TState) (uid channel : String) (ctx : C) :
    TState × Bool × List (Effect C) :=
  let r := t.manager.unsubscribe uid channel
  ({ t with manager := r.1 }, r.2,
    if r.2 then
      Effect.emitEvent (.unsubscribeEv uid channel ctx) ::
        (if t.hasBus then
          [Effect.busPublish t.transportChannel (.unsubscribeMsg channel uid)]
        else [])
    else [])

/-- Embeds the payload defaulting at the top of Transmit.broadcast:
`if (!payload) payload = \x7b\x7d` replaces an absent or falsy payload by
the empty object. -/
def coercePayload : Option Broadcastable → Broadcastable
  | none => .obj []
  | some p => if p.isFalsy then .obj [] else p

/-- Embeds Transmit.broadcast: publish a Broadcast wire message on the
transport channel when a bus is configured, unconditionally fan out
locally with no sender exclusion, then emit the broadcast lifecycle event.
The state is left untouched. -/
def TState.broadcast {C : Type} (t : TState) (channel : String)
    (payloadOpt : Option Broadcastable) (failing : List String) : List (Effect C) :=
  let payload := coercePayload payloadOpt
  (if t.hasBus then
    [Effect.busPublish t.transportChannel (.broadcastMsg channel payload)]
  else [])
    ++ broadcastLocally t.manager channel payload .undef failing
    ++ [Effect.emitEvent (.broadcastEv channel payload)]

/-- Embeds Transmit.broadcastExcept: the local fan-out with the given
sender exclusion; nothing touches the bus or the emitter. -/
def TState.broadcastExcept {C : Type} (t : TState) (channel : String)
    (payload : Broadcastable) (senderUid : SenderUid) (failing : List String) :
    List (Effect C) :=
  broadcastLocally t.manager channel payload senderUid failing

/-- Embeds the bus subscription handler installed by the constructor:
a Broadcast message triggers the plain local fan-out, a Subscribe message
is applied through subscribeLocally, an Unsubscribe message through
unsubscribeLocally. -/
def TState.handleBusMessage {C : Type} (t : TState) (failing : List String) :
    TransmitMessage → TState × List (Effect C)
  | .broadcastMsg channel payload =>
      (t, broadcastLocally t.manager channel payload .undef failing)
  | .subscribeMsg channel uid =>
      ({ t with manager := (t.subscribeLocally uid channel false).1 }, [])
  | .unsubscribeMsg channel uid =>
      ({ t with manager := (t.unsubscribeLocally uid channel).1 }, [])

/-- Embeds Transmit.#ping: write a frame with the reserved channel name and
the empty payload to the sink of every live stream, whatever its
subscriptions; failing lists the uids whose sink write fails. -/
def TState.ping {C : Type} (t : TState) (failing : List String) : List (Effect C) :=
  t.manager.getAllSubscribers.map fun s =>
    Effect.streamWrite s.uid "$$transmit/ping" (.obj []) (!(failing.contains s.uid))

/-- Effects of a shutdown call: cancelling the interval timer and
disconnecting the bus. -/
inductive ShutdownEffect where
  | clearTimer : ShutdownEffect
  | busDisconnect : ShutdownEffect
deriving DecidableEq

/-- Embeds Transmit.shutdown: clear the interval timer when one was
installed, then disconnect the bus when one is configured (the optional
chaining makes the call a no-op without a bus). -/
def TState.shutdown (t : TState) : TState × List ShutdownEffect :=
  ({ t with busConnected := if t.hasBus then false else t.busConnected },
    (if t.intervalSet then [ShutdownEffect.clearTimer] else [])
      ++ (if t.hasBus then [ShutdownEffect.busDisconnect] else []))

/-- A concrete manager used by the closed witness instances: three live
streams, two of them subscribed to channel ch. -/
def sampleManager : ManagerState :=
  ⟨[⟨"u1", ["ch"]⟩, ⟨"u2", ["ch"]⟩, ⟨"u3", []⟩]⟩

/-- A concrete orchestrator state with a configured bus and an installed
keepalive timer, used by the closed witness instances. -/
def sampleT : TState :=
  { manager := sampleManager
    hasBus := true
    busConnected := true
    transportChannel := "transmit::broadcast"
    intervalSet := true }

/-- A concrete orchestrator state without a configured bus. -/
def sampleTNoBus : TState :=
  { manager := sampleManager
    hasBus := false
    busConnected := false
    transportChannel := "transmit::broadcast"
    intervalSet := false }

/-- Every effect of a local fan-out is a stream write of the fan-out
channel and payload. -/
theorem broadcastLocally_shape {C : Type} (mgr : ManagerState) (channel : String)
    (p : Broadcastable) (su : SenderUid) (failing : List String) :
    ∀ e ∈ (broadcastLocally mgr channel p su failing : List (Effect C)),
      ∃ u ok, e = Effect.streamWrite u channel p ok := by
  intro e he
  simp only [broadcastLocally, List.mem_filterMap] at he
  obtain ⟨s, _, hf⟩ := he
  by_cases hx : su.excludes s.uid = true
  · rw [if_pos hx] at hf
    exact absurd hf (by simp)
  · rw [if_neg hx] at hf
    exact ⟨s.uid, !(failing.contains s.uid), (Option.some.inj hf).symm⟩

/-- Every stream indexed for the channel and not excluded receives a write
in the local fan-out. -/
theorem broadcastLocally_covers {C : Type} (mgr : ManagerState) (channel : String)
    (p : Broadcastable) (su : SenderUid) (failing : List String) (s : StreamRec)
    (hs : s ∈ mgr.findByChannel channel) (hx : su.excludes s.uid = false) :
    Effect.streamWrite s.uid channel p (!(failing.contains s.uid)) ∈
      (broadcastLocally mgr channel p su failing : List (Effect C)) := by
  simp only [broadcastLocally, List.mem_filterMap]
  exact ⟨s, hs, by simp [hx]⟩

/-- C1: the inbound bus handler treats a Broadcast message by local-only
fan-out for the carried channel: its effect trace is exactly the local
fan-out, the state is untouched, every effect of the trace is a stream
write of the carried channel and payload (so nothing is ever published
back to the bus and no broadcast lifecycle event is emitted), and every
stream indexed for the channel gets a write. -/
theorem busBroadcast_local_only (C : Type) (t : TState) (failing : List String)
    (channel : String) (p : Broadcastable) :
    ((t.handleBusMessage failing (.broadcastMsg channel p) : TState × List (Effect C)).2 =
        broadcastLocally t.manager channel p .undef failing) ∧
    ((t.handleBusMessage failing (.broadcastMsg channel p) : TState × List (Effect C)).1 = t) ∧
    (∀ e ∈ (t.handleBusMessage failing (.broadcastMsg channel p) : TState × List (Effect C)).2,
        ∃ u ok, e = Effect.streamWrite u channel p ok) ∧
    (∀ s ∈ t.manager.findByChannel channel, ∃ ok,
        Effect.streamWrite s.uid channel p ok ∈
          (t.handleBusMessage failing (.broadcastMsg channel p) : TState × List (Effect C)).2) := by
  refine ⟨rfl, rfl, ?_, ?_⟩
  · intro e he
    simp only [TState.handleBusMessage, broadcastLocally, List.mem_filterMap] at he
    obtain ⟨s, _, hf⟩ := he
    rw [if_neg (by simp [SenderUid.excludes])] at hf
    exact ⟨s.uid, !(failing.contains s.uid), (Option.some.inj hf).symm⟩
  · intro s hs
    refine ⟨!(failing.contains s.uid), ?_⟩
    simp only [TState.handleBusMessage, broadcastLocally, List.mem_filterMap]
    exact ⟨s, hs, by simp [SenderUid.excludes]⟩

/-- C1 witness: on a concrete state with uid u1 subscribed to ch, the
handler of a bus Broadcast message delivers a write to u1. -/
theorem busBroadcast_local_only_inst :
    ∃ ok, Effect.streamWrite "u1" "ch" Broadcastable.null ok ∈
      (sampleT.handleBusMessage [] (.broadcastMsg "ch" Broadcastable.null) :
        TState × List (Effect Unit)).2 :=
  (busBroadcast_local_only Unit sampleT [] "ch" Broadcastable.null).2.2.2
    ⟨"u1", ["ch"]⟩ (by simp [sampleT, sampleManager, ManagerState.findByChannel])

/-- C3: broadcastExcept writes to exactly those uids that have a stream
indexed for the channel and are not matched by the exclusion argument: a
write for uid appears in the trace iff uid is not excluded and some live
stream with that uid is subscribed to the channel. In particular an
excluded uid receives no write even while subscribed. -/
theorem broadcastExcept_exclusion (C : Type) (t : TState) (channel : String)
    (p : Broadcastable) (senderUid : SenderUid) (failing : List String) (uid : String) :
    (∃ ok, Effect.streamWrite uid channel p ok ∈
        (t.broadcastExcept channel p senderUid failing : List (Effect C))) ↔
      (senderUid.excludes uid = false ∧
        ∃ s ∈ t.manager.streams, s.uid = uid ∧ s.channels.contains channel = true) := by
  simp only [TState.broadcastExcept, broadcastLocally, ManagerState.findByChannel,
    List.mem_filterMap, List.mem_filter]
  constructor
  · rintro ⟨ok, s, ⟨hs, hch⟩, hf⟩
    by_cases hx : senderUid.excludes s.uid = true
    · rw [if_pos hx] at hf
      exact absurd hf (by simp)
    · rw [if_neg hx] at hf
      obtain ⟨hu, -, -, -⟩ := Effect.streamWrite.inj (Option.some.inj hf)
      have hx0 : senderUid.excludes s.uid = false := by
        cases h : senderUid.excludes s.uid
        · rfl
        · exact absurd h hx
      exact ⟨hu ▸ hx0, s, hs, hu, hch⟩
  · rintro ⟨hexcl, s, hs, hu, hch⟩
    refine ⟨!(failing.contains uid), s, ⟨hs, hch⟩, ?_⟩
    simp [hu, hexcl]

/-- C3 witness: excluding u1 on a concrete state where u1 and u2 are both
subscribed to ch, u2 still has a write in the trace. -/
theorem broadcastExcept_exclusion_inst :
    ∃ ok, Effect.streamWrite "u2" "ch" Broadcastable.null ok ∈
      (sampleT.broadcastExcept "ch" Broadcastable.null (SenderUid.one "u1") [] :
        List (Effect Unit)) :=
  (broadcastExcept_exclusion Unit sampleT "ch" Broadcastable.null
      (SenderUid.one "u1") [] "u2").mpr
    ⟨rfl, ⟨"u2", ["ch"]⟩, by simp [sampleT, sampleManager], rfl, rfl⟩

/-- C2: a broadcast publishes the Broadcast wire message on the transport
channel exactly when a bus is configured (and publishes nothing else to any
topic), writes the frame to every stream indexed for the channel, and its
trace carries exactly one lifecycle event, the broadcast event with the
coerced payload, bus or no bus. -/
theorem broadcast_bus_fanout_event (C : Type) (t : TState) (channel : String)
    (payloadOpt : Option Broadcastable) (failing : List String) :
    (∀ topic m, Effect.busPublish topic m ∈
        (t.broadcast channel payloadOpt failing : List (Effect C)) ↔
      (t.hasBus = true ∧ topic = t.transportChannel ∧
        m = TransmitMessage.broadcastMsg channel (coercePayload payloadOpt))) ∧
    (∀ s ∈ t.manager.findByChannel channel, ∃ ok,
        Effect.streamWrite s.uid channel (coercePayload payloadOpt) ok ∈
          (t.broadcast channel payloadOpt failing : List (Effect C))) ∧
    ((t.broadcast channel payloadOpt failing : List (Effect C)).filter Effect.isEmit =
      [Effect.emitEvent (.broadcastEv channel (coercePayload payloadOpt))]) := by
  have hshape := broadcastLocally_shape (C := C) t.manager channel
    (coercePayload payloadOpt) .undef failing
  refine ⟨?_, ?_, ?_⟩
  · intro topic m
    constructor
    · intro hm
      simp only [TState.broadcast, List.mem_append, List.mem_singleton] at hm
      rcases hm with (hm | hm) | hm
      · cases hb : t.hasBus
        · rw [hb] at hm
          simp at hm
        · rw [hb] at hm
          simp only [if_true, List.mem_singleton, Effect.busPublish.injEq] at hm
          exact ⟨rfl, hm.1, hm.2⟩
      · obtain ⟨u, ok, he⟩ := hshape _ hm
        exact absurd he (by simp)
      · exact absurd hm (by simp)
    · rintro ⟨hb, ht, hmsg⟩
      simp only [TState.broadcast, List.mem_append]
      exact Or.inl (Or.inl (by simp [hb, ht, hmsg]))
  · intro s hs
    refine ⟨!(failing.contains s.uid), ?_⟩
    simp only [TState.broadcast, List.mem_append]
    exact Or.inl (Or.inr (broadcastLocally_covers t.manager channel
      (coercePayload payloadOpt) .undef failing s hs rfl))
  · have hL : (broadcastLocally t.manager channel (coercePayload payloadOpt)
        .undef failing : List (Effect C)).filter Effect.isEmit = [] := by
      rw [List.filter_eq_nil_iff]
      intro e he
      obtain ⟨u, ok, rfl⟩ := hshape e he
      simp [Effect.isEmit]
    cases hb : t.hasBus
    · simp only [TState.broadcast, hb, Bool.false_eq_true, if_false, List.nil_append,
        List.filter_append, hL, List.nil_append]
      simp [Effect.isEmit]
    · simp only [TState.broadcast, hb, if_pos rfl, List.filter_append, hL]
      simp [Effect.isEmit]

/-- C2 witness: on a concrete state with a configured bus, the broadcast
trace contains the bus publish of the Broadcast wire message. -/
theorem broadcast_bus_fanout_event_inst :
    Effect.busPublish "transmit::broadcast"
        (TransmitMessage.broadcastMsg "ch" (Broadcastable.num 7)) ∈
      (sampleT.broadcast "ch" (some (Broadcastable.num 7)) [] : List (Effect Unit)) :=
  ((broadcast_bus_fanout_event Unit sampleT "ch" (some (Broadcastable.num 7)) []).1
      "transmit::broadcast" (TransmitMessage.broadcastMsg "ch" (Broadcastable.num 7))).mpr
    ⟨rfl, rfl, rfl⟩

/-- C4: a bus Subscribe message is applied locally through the stream
manager with skipAuthorization set to true for the carried uid and
channel; the bypass makes any authorization verdict irrelevant, and the
application succeeds exactly when a live local stream exists for the uid;
a bus Unsubscribe message is applied directly through the manager for the
carried uid and channel. -/
theorem busSubUnsub_skip_auth (C : Type) (t : TState) (failing : List String)
    (channel uid : String) :
    ((t.handleBusMessage failing (.subscribeMsg channel uid) :
        TState × List (Effect C)).1.manager =
      (t.manager.subscribe uid channel true false).1) ∧
    (∀ a b : Bool, t.manager.subscribe uid channel true a =
      t.manager.subscribe uid channel true b) ∧
    ((t.manager.subscribe uid channel true false).2 =
      t.manager.streams.any fun s => s.uid == uid) ∧
    ((t.handleBusMessage failing (.unsubscribeMsg channel uid) :
        TState × List (Effect C)).1.manager =
      (t.manager.unsubscribe uid channel).1) := by
  refine ⟨rfl, ?_, ?_, rfl⟩
  · intro a b
    simp [ManagerState.subscribe]
  · simp only [ManagerState.subscribe, Bool.true_or, if_true]
    cases h : t.manager.streams.any fun s => s.uid == uid
    · simp [h]
    · simp [h]

/-- C4 witness: on the concrete state, applying a bus Subscribe message
for uid u3 succeeds exactly because u3 has a live stream. -/
theorem busSubUnsub_skip_auth_inst :
    (sampleT.manager.subscribe "u3" "ch" true false).2 =
      sampleT.manager.streams.any fun s => s.uid == "u3" :=
  (busSubUnsub_skip_auth Unit sampleT [] "ch" "u3").2.2.1

/-- C5: the subscribe wiring, on success, emits exactly one lifecycle
event — the subscribe event with the uid, channel and context — and its
trace contains the bus publish of the Subscribe wire message exactly when
a bus is configured; on failure the trace is empty. The unsubscribe wiring
is symmetric with the unsubscribe event and the Unsubscribe message on
actual removal. -/
theorem subscribe_unsubscribe_wiring (C : Type) (t : TState) (uid channel : String)
    (ctx : C) (authOk : Bool) :
    ((t.subscribe uid channel ctx authOk).2.1 = true →
      ((t.subscribe uid channel ctx authOk).2.2.filter Effect.isEmit =
          [Effect.emitEvent (.subscribeEv uid channel ctx)]) ∧
      (Effect.busPublish t.transportChannel (.subscribeMsg channel uid) ∈
          (t.subscribe uid channel ctx authOk).2.2 ↔ t.hasBus = true)) ∧
    ((t.subscribe uid channel ctx authOk).2.1 = false →
      (t.subscribe uid channel ctx authOk).2.2 = []) ∧
    ((t.unsubscribe uid channel ctx).2.1 = true →
      ((t.unsubscribe uid channel ctx).2.2.filter Effect.isEmit =
          [Effect.emitEvent (.unsubscribeEv uid channel ctx)]) ∧
      (Effect.busPublish t.transportChannel (.unsubscribeMsg channel uid) ∈
          (t.unsubscribe uid channel ctx).2.2 ↔ t.hasBus = true)) ∧
    ((t.unsubscribe uid channel ctx).2.1 = false →
      (t.unsubscribe uid channel ctx).2.2 = []) := by
  rcases hma : t.manager.subscribe uid channel false authOk with ⟨st1, ok1⟩
  rcases hmb : t.manager.unsubscribe uid channel with ⟨st2, ok2⟩
  simp only [TState.subscribe, TState.unsubscribe, hma, hmb]
  refine ⟨?_, ?_, ?_, ?_⟩
  · intro h
    subst h
    refine ⟨?_, ?_⟩
    · cases hb : t.hasBus <;> simp [hb, Effect.isEmit]
    · cases hb : t.hasBus <;> simp [hb]
  · intro h
    subst h
    simp
  · intro h
    subst h
    refine ⟨?_, ?_⟩
    · cases hb : t.hasBus <;> simp [hb, Effect.isEmit]
    · cases hb : t.hasBus <;> simp [hb]
  · intro h
    subst h
    simp

/-- C5 witness: subscribing uid u3 to a fresh channel on the concrete
bus-backed state succeeds, emits exactly the subscribe event, and the
trace carries the bus publish of the Subscribe message. -/
theorem subscribe_unsubscribe_wiring_inst :
    ((sampleT.subscribe "u3" "newch" () true).2.2.filter Effect.isEmit =
        [Effect.emitEvent (.subscribeEv "u3" "newch" ())]) ∧
      (Effect.busPublish sampleT.transportChannel (.subscribeMsg "newch" "u3") ∈
        (sampleT.subscribe "u3" "newch" () true).2.2 ↔ sampleT.hasBus = true) :=
  (subscribe_unsubscribe_wiring Unit sampleT "u3" "newch" () true).1 (by decide)

/-- C10: the bus-replay application of a Subscribe or Unsubscribe message
produces an empty effect trace: no subscribe or unsubscribe lifecycle
event is emitted and nothing is published back to the bus. -/
theorem busSubUnsub_silent (C : Type) (t : TState) (failing : List String)
    (channel uid : String) :
    ((t.handleBusMessage failing (.subscribeMsg channel uid) :
        TState × List (Effect C)).2 = []) ∧
    ((t.handleBusMessage failing (.unsubscribeMsg channel uid) :
        TState × List (Effect C)).2 = []) :=
  ⟨rfl, rfl⟩

/-- C6: a keepalive timer firing writes the reserved ping frame (channel
$$transmit/ping with the empty object payload) to the sink of every live
stream, whatever that stream's subscriptions; every effect of the ping
trace is such a write, so no lifecycle event is emitted and nothing is
published to the bus; and the constructor installs the timer exactly when
a ping interval is configured. -/
theorem ping_keepalive (C : Type) (t : TState) (failing : List String)
    (cfg : TransmitConfig) (hasTransport : Bool) :
    (∀ s ∈ t.manager.streams,
        Effect.streamWrite s.uid "$$transmit/ping" (Broadcastable.obj [])
          (!(failing.contains s.uid)) ∈ (t.ping failing : List (Effect C))) ∧
    (∀ e ∈ (t.ping failing : List (Effect C)), ∃ u ok,
        e = Effect.streamWrite u "$$transmit/ping" (Broadcastable.obj []) ok) ∧
    ((mkTransmit cfg hasTransport).intervalSet = cfg.pingInterval.isSome) := by
  refine ⟨?_, ?_, rfl⟩
  · intro s hs
    simp only [TState.ping, ManagerState.getAllSubscribers, List.mem_map]
    exact ⟨s, hs, rfl⟩
  · intro e he
    simp only [TState.ping, ManagerState.getAllSubscribers, List.mem_map] at he
    obtain ⟨s, -, rfl⟩ := he
    exact ⟨s.uid, !(failing.contains s.uid), rfl⟩

/-- C6 witness: the stream u3, subscribed to no channel at all, still
receives the ping frame on the concrete state. -/
theorem ping_keepalive_inst :
    Effect.streamWrite "u3" "$$transmit/ping" (Broadcastable.obj [])
        (!(([] : List String).contains "u3")) ∈
      (sampleT.ping [] : List (Effect Unit)) :=
  (ping_keepalive Unit sampleT [] ⟨none, none⟩ false).1 ⟨"u3", []⟩
    (by simp [sampleT, sampleManager])

/-- C7: shutdown produces a clear-timer step exactly when the interval
timer was installed and a bus disconnect exactly when a bus is configured;
without a bus it completes doing at most the timer work; and it is
idempotent: a second shutdown leaves the state of the first unchanged and
repeats the same harmless steps. -/
theorem shutdown_idempotent (t : TState) :
    (ShutdownEffect.clearTimer ∈ t.shutdown.2 ↔ t.intervalSet = true) ∧
    (ShutdownEffect.busDisconnect ∈ t.shutdown.2 ↔ t.hasBus = true) ∧
    (t.hasBus = false →
      t.shutdown.2 = if t.intervalSet then [ShutdownEffect.clearTimer] else []) ∧
    (t.shutdown.1.shutdown.1 = t.shutdown.1) ∧
    (t.shutdown.1.shutdown.2 = t.shutdown.2) := by
  obtain ⟨mgr, hb, bc, tc, iv⟩ := t
  cases hb <;> cases iv <;> simp [TState.shutdown]

/-- C7 witness: on the concrete state without a configured bus and without
a timer, shutdown completes with no steps at all. -/
theorem shutdown_idempotent_inst :
    sampleTNoBus.shutdown.2 =
      if sampleTNoBus.intervalSet then [ShutdownEffect.clearTimer] else [] :=
  (shutdown_idempotent sampleTNoBus).2.2.1 rfl

/-- The write attempts of a local fan-out do not depend on which sinks
fail: only the recorded success flags differ. -/
theorem broadcastLocally_forgetOk (C : Type) (mgr : ManagerState) (channel : String)
    (p : Broadcastable) (su : SenderUid) (failing : List String) :
    (broadcastLocally mgr channel p su failing : List (Effect C)).map Effect.forgetOk =
      (broadcastLocally mgr channel p su [] : List (Effect C)).map Effect.forgetOk := by
  simp only [broadcastLocally, List.map_filterMap]
  congr 1
  funext s
  by_cases hx : su.excludes s.uid = true
  · simp [hx]
  · simp [hx, Effect.forgetOk]

/-- C8: a sink write failure is confined to its own stream. The attempted
writes of a local fan-out are identical whatever set of sinks fails (only
the per-write success flag changes), every subscribed non-excluded stream
keeps its write in the presence of any failure set, and the whole
broadcast trace is likewise independent of the failure set up to success
flags — the broadcast operation itself always completes. -/
theorem write_failure_isolated (C : Type) (t : TState) (channel : String)
    (p : Broadcastable) (payloadOpt : Option Broadcastable) (su : SenderUid)
    (failing failing2 : List String) :
    ((broadcastLocally t.manager channel p su failing : List (Effect C)).map Effect.forgetOk
      = (broadcastLocally t.manager channel p su failing2 : List (Effect C)).map
          Effect.forgetOk) ∧
    (∀ s ∈ t.manager.findByChannel channel, su.excludes s.uid = false →
      ∃ ok, Effect.streamWrite s.uid channel p ok ∈
        (broadcastLocally t.manager channel p su failing : List (Effect C))) ∧
    ((t.broadcast channel payloadOpt failing : List (Effect C)).map Effect.forgetOk =
      (t.broadcast channel payloadOpt failing2 : List (Effect C)).map Effect.forgetOk) := by
  refine ⟨?_, ?_, ?_⟩
  · rw [broadcastLocally_forgetOk C t.manager channel p su failing,
      broadcastLocally_forgetOk C t.manager channel p su failing2]
  · intro s hs hx
    exact ⟨!(failing.contains s.uid),
      broadcastLocally_covers t.manager channel p su failing s hs hx⟩
  · simp only [TState.broadcast, List.map_append]
    rw [broadcastLocally_forgetOk C t.manager channel (coercePayload payloadOpt)
        .undef failing,
      broadcastLocally_forgetOk C t.manager channel (coercePayload payloadOpt)
        .undef failing2]

/-- C8 witness: with the sink of u1 failing, the subscribed stream u2
still has its write in the fan-out trace of the concrete state. -/
theorem write_failure_isolated_inst :
    ∃ ok, Effect.streamWrite "u2" "ch" Broadcastable.null ok ∈
      (broadcastLocally sampleT.manager "ch" Broadcastable.null SenderUid.undef ["u1"] :
        List (Effect Unit)) :=
  (write_failure_isolated Unit sampleT "ch" Broadcastable.null none
      SenderUid.undef ["u1"] []).2.1
    ⟨"u2", ["ch"]⟩ (by simp [sampleT, sampleManager, ManagerState.findByChannel]) rfl

/-- C9: a falsy payload argument — absent, null, false, zero or the empty
string — is replaced by the empty object, and the whole broadcast trace
(bus publish, local writes and the broadcast lifecycle event) is the one
of the empty-object payload, which the emitted event carries. -/
theorem falsy_payload_default (C : Type) (t : TState) (channel : String)
    (failing : List String) (payloadOpt : Option Broadcastable)
    (h : payloadOpt.all Broadcastable.isFalsy = true) :
    coercePayload payloadOpt = Broadcastable.obj [] ∧
    ((t.broadcast channel payloadOpt failing : List (Effect C)) =
      t.broadcast channel (some (Broadcastable.obj [])) failing) ∧
    (Effect.emitEvent (.broadcastEv channel (Broadcastable.obj [])) ∈
      (t.broadcast channel payloadOpt failing : List (Effect C))) ∧
    (Broadcastable.null.isFalsy = true ∧ (Broadcastable.bool false).isFalsy = true ∧
      (Broadcastable.num 0).isFalsy = true ∧ (Broadcastable.str "").isFalsy = true ∧
      (none : Option Broadcastable).all Broadcastable.isFalsy = true) := by
  have hc : coercePayload payloadOpt = Broadcastable.obj [] := by
    cases payloadOpt with
    | none => rfl
    | some p =>
      have hp : p.isFalsy = true := by simpa using h
      simp [coercePayload, hp]
  refine ⟨hc, ?_, ?_, rfl, rfl, by decide, by decide, rfl⟩
  · simp only [TState.broadcast, hc]
    rfl
  · simp [TState.broadcast, hc]

/-- C9 witness: broadcasting the null payload on the concrete state
substitutes the empty object. -/
theorem falsy_payload_default_inst :
    coercePayload (some Broadcastable.null) = Broadcastable.obj [] :=
  (falsy_payload_default Unit sampleT "ch" [] (some Broadcastable.null) rfl).1

end Transmit
